import Mathlib

/-!
Verification of the Soil-Fertility-Detection-System repository.

Part 1 embeds `src/soil_fertility_detection_v3.py` (class
`SoilFertilityClassifier`): nutrient banding, the three gatekeeper
assessors, the index score and `apply_liebig_law`.  Python floats are
modelled as rationals (all thresholds and correction factors in the
source are short decimal literals, where the two agree on every
comparison performed); the `round(x, 2)` applied to the report fields
`index_score`, `final_score` and `limiting_factor_strength` when the
result dictionary is built is display formatting and is not applied to
the fields of the `Assessment` structure below (on the attainable
correction factors 0.1, 0.2, 0.6, 0.7 and 1.0 it is the identity).  The
`recommendation` field (templated advisory text, `_generate_recommendation`)
is presentational and not part of any property checked here, so the
structure omits it.
-/

namespace SoilFertility

/-- `NutrientThresholds` in the source (kg/hectare). -/
def N_LOW : ℚ := 280
def N_MEDIUM_UPPER : ℚ := 560
def P_LOW : ℚ := 10
def P_MEDIUM_UPPER : ℚ := 25
def K_LOW : ℚ := 110
def K_MEDIUM_UPPER : ℚ := 280

/-- `pHRanges` in the source. -/
def HIGHLY_ACIDIC_UPPER : ℚ := 5.5
def OPTIMAL_LOWER : ℚ := 6.0
def OPTIMAL_UPPER : ℚ := 7.5
def ALKALINE_LOWER : ℚ := 8.5

/-- `ECRanges` in the source (dS/m). -/
def GOOD_UPPER : ℚ := 2.0
def MODERATE_UPPER : ℚ := 4.0

/-- `OCRanges` in the source (percent). -/
def LOW_UPPER : ℚ := 0.5
def AVERAGE_UPPER : ℚ := 0.75

/-- `SoilFertilityClassifier.classify_nutrient_level`: classify a single
nutrient (N, P or K, selected by `nutrient_type`) as Infertile, Fertile
or Very Fertile; any other type string returns "Unknown". -/
def classify_nutrient_level (nutrient_value : ℚ) (nutrient_type : String) : String :=
  if nutrient_type = "N" then
    if nutrient_value < N_LOW then "Infertile"
    else if nutrient_value ≤ N_MEDIUM_UPPER then "Fertile"
    else "Very Fertile"
  else if nutrient_type = "P" then
    if nutrient_value < P_LOW then "Infertile"
    else if nutrient_value ≤ P_MEDIUM_UPPER then "Fertile"
    else "Very Fertile"
  else if nutrient_type = "K" then
    if nutrient_value < K_LOW then "Infertile"
    else if nutrient_value ≤ K_MEDIUM_UPPER then "Fertile"
    else "Very Fertile"
  else "Unknown"

/-- `SoilFertilityClassifier.assess_ph_gatekeeper`: classification label and
correction multiplier for soil pH. -/
def assess_ph_gatekeeper (ph : ℚ) : String × ℚ :=
  if ph < HIGHLY_ACIDIC_UPPER then ("Highly Acidic (< 5.5)", 0.2)
  else if ph < OPTIMAL_LOWER then ("Suboptimal (5.5-6.0)", 0.6)
  else if ph ≤ OPTIMAL_UPPER then ("Optimal (6.0-7.5)", 1.0)
  else if ph < ALKALINE_LOWER then ("Slightly Alkaline (7.5-8.5)", 0.7)
  else ("Highly Alkaline (> 8.5)", 0.2)

/-- `SoilFertilityClassifier.assess_ec_impact`: classification label and
correction multiplier for electrical conductivity. -/
def assess_ec_impact (ec : ℚ) : String × ℚ :=
  if ec ≤ GOOD_UPPER then ("Good (0-2 dS/m)", 1.0)
  else if ec ≤ MODERATE_UPPER then ("Moderate (2-4 dS/m)", 0.6)
  else ("Saline/Infertile (> 4 dS/m)", 0.1)

/-- `SoilFertilityClassifier.assess_organic_carbon`: classification label and
quality multiplier for organic carbon. -/
def assess_organic_carbon (oc_percent : ℚ) : String × ℚ :=
  if oc_percent < LOW_UPPER then ("Low (< 0.5%)", 0.2)
  else if oc_percent ≤ AVERAGE_UPPER then ("Average (0.5-0.75%)", 0.6)
  else ("High (> 0.75%)", 1.0)

/-- `SoilFertilityClassifier.calculate_index_score`:
`(N + P + K) * oc_decimal` where `oc_decimal = OC / 100.0 if OC > 1.0 else OC`. -/
def calculate_index_score (N P K OC : ℚ) : ℚ :=
  let oc_decimal := if OC > 1.0 then OC / 100.0 else OC
  (N + P + K) * oc_decimal

/-- The result dictionary of `SoilFertilityClassifier.apply_liebig_law`
(scalar fields; the `value` keys repeat the inputs, the `status` keys and the
`description`/`recommendation` strings are presentational). -/
structure Assessment where
  n_class : String
  p_class : String
  k_class : String
  npk_overall_status : String
  ph_status : String
  ph_correction : ℚ
  ec_status : String
  ec_correction : ℚ
  oc_status : String
  oc_quality : ℚ
  index_score : ℚ
  final_score : ℚ
  limiting_factor : String
  limiting_factor_strength : ℚ
  fertility_classification : String
deriving Repr, DecidableEq

/-- `SoilFertilityClassifier.apply_liebig_law`. -/
def apply_liebig_law (N P K pH EC OC : ℚ) : Assessment :=
  -- Step 1: Evaluate Big Three (N-P-K)
  let n_class := classify_nutrient_level N "N"
  let p_class := classify_nutrient_level P "P"
  let k_class := classify_nutrient_level K "K"
  -- Determine overall NPK status
  let npk_levels := [n_class, p_class, k_class]
  let npk_status :=
    if npk_levels.all (fun level => level = "Very Fertile") then "Very Fertile"
    else if npk_levels.all (fun level => level = "Fertile" ∨ level = "Very Fertile") then
      "Fertile"
    else "Infertile"
  -- Step 2: Apply pH Gatekeeper
  let ph_status := (assess_ph_gatekeeper pH).1
  let ph_correction := (assess_ph_gatekeeper pH).2
  -- Step 3: Assess EC (salt stress)
  let ec_status := (assess_ec_impact EC).1
  let ec_correction := (assess_ec_impact EC).2
  -- Step 4: Check OC (biological battery)
  let oc_status := (assess_organic_carbon OC).1
  let oc_quality := (assess_organic_carbon OC).2
  -- Step 5: Calculate Index Score
  let index_score := calculate_index_score N P K OC
  -- Step 6: limiting_factor_strength = min([ph_correction, ec_correction, oc_quality])
  let limiting_factor_strength := min ph_correction (min ec_correction oc_quality)
  -- Determine which factor is limiting
  let limiting_factor :=
    if ph_correction = limiting_factor_strength then "pH (Nutrient Availability)"
    else if ec_correction = limiting_factor_strength then "EC / Salinity (Osmotic Stress)"
    else "Organic Carbon (Biological Activity)"
  -- Step 7: Final Fertility Classification
  let final_score := index_score * limiting_factor_strength
  let fertility_class :=
    if final_score > 400 ∧ limiting_factor_strength > 0.8 ∧ ph_correction > 0.8 then
      "OPTIMAL"
    else if final_score > 200 ∧ limiting_factor_strength > 0.6 then "HIGH"
    else if final_score > 100 ∧ limiting_factor_strength > 0.3 then "MODERATE"
    else "LOW"
  -- If any critical factor is very low, override to INFERTILE
  let fertility_class :=
    if limiting_factor_strength < 0.3 then "INFERTILE" else fertility_class
  { n_class := n_class
    p_class := p_class
    k_class := k_class
    npk_overall_status := npk_status
    ph_status := ph_status
    ph_correction := ph_correction
    ec_status := ec_status
    ec_correction := ec_correction
    oc_status := oc_status
    oc_quality := oc_quality
    index_score := index_score
    final_score := final_score
    limiting_factor := limiting_factor
    limiting_factor_strength := limiting_factor_strength
    fertility_classification := fertility_class }

/-- The spec's pH assessor step function (section 4.2, correction factor):
pH below 5.5 gives 0.2, the interval from 5.5 inclusive to 6.0 exclusive gives
0.6, from 6.0 to 7.5 both inclusive gives 1.0, strictly between 7.5 and 8.5
gives 0.7, and 8.5 or above gives 0.2. -/
def ph_factor_spec (ph : ℚ) : ℚ :=
  if ph < 5.5 then 0.2
  else if 5.5 ≤ ph ∧ ph < 6.0 then 0.6
  else if 6.0 ≤ ph ∧ ph ≤ 7.5 then 1.0
  else if 7.5 < ph ∧ ph < 8.5 then 0.7
  else 0.2

/-- The spec's EC assessor step function (section 4.2, correction factor). -/
def ec_factor_spec (ec : ℚ) : ℚ :=
  if ec ≤ 2.0 then 1.0
  else if 2.0 < ec ∧ ec ≤ 4.0 then 0.6
  else 0.1

/-- The spec's OC assessor step function (section 4.2, quality factor). -/
def oc_factor_spec (oc : ℚ) : ℚ :=
  if oc < 0.5 then 0.2
  else if 0.5 ≤ oc ∧ oc ≤ 0.75 then 0.6
  else 1.0

/-- The spec's classification decision table (section 4.3 step 6), before the
INFERTILE override: top-down, first match wins. -/
def classification_table_spec (final_score strength ph_correction : ℚ) : String :=
  if final_score > 400 ∧ strength > 0.8 ∧ ph_correction > 0.8 then "OPTIMAL"
  else if final_score > 200 ∧ strength > 0.6 then "HIGH"
  else if final_score > 100 ∧ strength > 0.3 then "MODERATE"
  else "LOW"

end SoilFertility

/-!
Part 2 embeds `src/knowledge_base_query.py`: the multi-tier answer cascade
`query_knowledge_base`, the keyword scorer `find_best_match_in_kb`, the
rule-based responder `generate_chatbot_response`, the static knowledge base
`get_agricultural_knowledge_base` and `extract_title_from_question`.

The external capabilities the cascade consults (the ChromaDB learned-answer
store behind `retrieve_from_vector_db`, the PDF document cache behind
`retrieve_from_pdf_db`, and the generative backend behind
`generate_rag_answer`) are modelled as an explicit environment of functions
returning `Except String`: each call may yield a value or raise, which is
exactly the contingency the `try/except` of `query_knowledge_base` guards
against (the `Except.error` path lands in its `except` handler).  The two
store mutations of priority 6 (`add_to_vector_db`, `save_to_learned_knowledge`,
both of which swallow their own errors in the source) are modelled as a list
of write events returned next to the answer.  Python's `str.lower`/`str.strip`
are modelled on the ASCII range (every trigger keyword in the source is ASCII),
and `in` on strings is substring containment.
-/

namespace KnowledgeBase

/-- Python `str.lower()` restricted to ASCII case mapping. -/
def pyLower (s : String) : String := String.mk (s.data.map Char.toLower)

/-- Helper for `strIn`: the first character list is an initial segment of the
second. -/
def leadsList : List Char → List Char → Bool
  | [], _ => true
  | _ :: _, [] => false
  | a :: as, b :: bs => a == b && leadsList as bs

/-- Helper for `strIn`: the first character list occurs contiguously inside the
second. -/
def subList (needle : List Char) : List Char → Bool
  | [] => needle.isEmpty
  | b :: bs => leadsList needle (b :: bs) || subList needle bs

/-- Python's `needle in haystack` on strings: substring containment. -/
def strIn (needle haystack : String) : Bool := subList needle.data haystack.data

/-- Python `str.strip()`: leading and trailing whitespace removed. -/
def pyStrip (s : String) : String :=
  String.mk (((s.data.dropWhile Char.isWhitespace).reverse.dropWhile
    Char.isWhitespace).reverse)

/-- Helper for `pyWords`: split a character list at whitespace (the split
pieces, in order, possibly empty). -/
def wordsAux (cur : List Char) : List Char → List (List Char)
  | [] => [cur.reverse]
  | c :: cs =>
    if Char.isWhitespace c then cur.reverse :: wordsAux [] cs
    else wordsAux (c :: cur) cs

/-- Python `str.split()` with no separator: whitespace-delimited words, empty
pieces dropped. -/
def pyWords (s : String) : List String :=
  ((wordsAux [] s.data).filter (fun w => ¬ w.isEmpty)).map String.mk

/-- Helper for `pySplitBar`: split a character list at every bar character. -/
def splitBarAux (cur : List Char) : List Char → List (List Char)
  | [] => [cur.reverse]
  | c :: cs =>
    if c == '|' then cur.reverse :: splitBarAux [] cs
    else splitBarAux (c :: cur) cs

/-- Python `pattern.split("|")` as used on the crop-keyword patterns. -/
def pySplitBar (s : String) : List String := (splitBarAux [] s.data).map String.mk

/-- The result dictionary shape shared by every answer source in
`knowledge_base_query.py`: the keys `sources` and `source` are present on some
return paths only, so they are optional here. -/
structure KnowledgeAnswer where
  answer : String
  title : String
  confidence : ℚ
  source_count : Nat
  sources : Option (List String) := none
  source : Option String := none
deriving Repr, DecidableEq

/-- One entry of `get_agricultural_knowledge_base()` (the transient `score` key
that `find_best_match_in_kb` writes into the winning dictionary is returned
separately next to the entry). -/
structure KBEntry where
  keywords : List String
  title : String
  answer : String
deriving Repr, DecidableEq

/-- One scored chunk returned by `retrieve_from_pdf_db` (its `score` key is
used only inside that capability, so it is not modelled here). -/
structure PdfDoc where
  text : String
  source : String
deriving Repr, DecidableEq

/-- A mutation of the learning store performed by priority 6 of the cascade:
`add_to_vector_db(question, answer)` and
`save_to_learned_knowledge(question, response)`. -/
inductive StoreWrite where
  | addVector (question answer : String)
  | saveLearned (question : String) (response : KnowledgeAnswer)
deriving Repr, DecidableEq

/-- `TOP_K` from the module configuration. -/
def TOP_K : Nat := 3
def cocoa_answer : String :=
  "Cocoa trees require a hot and humid climate with regular rainfall and temperatures between 21 and 32 degrees Celsius. They grow best in deep, well-drained loamy soils rich in organic matter with a pH between 6 and 7.5. Plant healthy seedlings at a spacing of three meters by three meters and provide shade using temporary plants like banana or gliricidia. Apply farmyard manure and recommended NPK fertilizers in split doses each year. Water regularly during dry periods but avoid waterlogging. Remove dead or diseased branches and maintain a clean basin around each tree. Monitor for pests and diseases and use appropriate control methods. Harvest pods when fully ripe. Trees start bearing in three to five years. Proper care ensures healthy growth and good yield of cocoa pods."

def ratnagiri_answer : String :=
  "🍃 Ratnagiri Mangoes - Maharashtra's Pride:\n\n🌍 Unique Characteristics:\n✓ World-famous for superior quality and taste\n✓ Known as 'Queen of Mangoes' or 'Hapus'\n✓ Grown exclusively in Ratnagiri district, Maharashtra\n✓ Protected Geographical Indication (GI) tag\n✓ Export quality with premium pricing\n\n🌡️ Climate & Soil:\n✓ Coastal Konkan region with humid climate\n✓ Temperature: 25-35°C during growth\n✓ Rainfall: 2000-3000mm annually\n✓ Soil: Lateritic red soil, well-drained\n✓ pH: 6.0-7.5 (slightly acidic to neutral)\n\n🌱 Cultivation:\n✓ Varieties: Alphonso, Pairi, Mankurad\n✓ Rootstock: Local mango varieties\n✓ Spacing: 10m × 10m (100 trees/acre)\n✓ Age: 5-8 years for first commercial yield\n✓ Yield: 5-8 tons/acre (premium quality)\n\n🔧 Special Management:\n✓ Regular pruning for air circulation\n✓ Organic manure: 50-100 kg/tree/year\n✓ Micronutrients: Zn, B sprays during flowering\n✓ Pest control: Mango hoppers, fruit flies\n✓ Harvest: April-May when fruits are mature\n\n💰 Economic Value:\n✓ Price: ₹500-2000/kg (premium markets)\n✓ Export: Major markets in Middle East, Europe\n✓ GI Protection: Only Ratnagiri grown can use name\n✓ Farmer Income: ₹2-5 lakhs/acre annually\n\n🏆 Why Special:\n✓ Unique Konkan climate creates perfect sugar-acid balance\n✓ Traditional cultivation methods preserved\n✓ Superior fiberless pulp and rich aroma\n✓ Natural sweetness without artificial ripening\n✓ Cultural heritage of Maharashtra farmers"

def query_error_text : String :=
  "Error processing your question. Please try again with a simpler question."

def fallback_text_head : String :=
  "I don't have specific information about '"

def fallback_text_tail : String :=
  "' in my knowledge base. For expert guidance, please contact your local agricultural extension office. You can also try asking about:\n\n• Seasonal cultivation (when/how to plant)\n• Soil testing and amendments\n• Pest and disease management\n• Crop-specific techniques\n• Irrigation and water management\n• Nutrient deficiencies\n• Regional crop recommendations"

def cabbage_answer (result_region : String) : String :=
  "🥬 Cabbage Cultivation Seasons (" ++ result_region ++ "):\n\n📅 Best Seasons:\n✓ Main Season: July-August (kharif) for harvest Sept-Nov\n✓ Summer Season: January-February for harvest Apr-May\n✓ Winter Season: September-October (rabi) for harvest Dec-Feb\n\n🌍 Regional Timing (" ++ result_region ++ "):\n✓ Best in " ++ result_region ++ ": September-October sowing for winter harvest\n✓ Cooler months are IDEAL for cabbage quality\n✓ Avoid extreme heat (>30°C affects head formation)\n\n🌡️ Temperature Requirements:\n✓ Optimal: 15-25°C\n✓ Too hot (>30°C): Heads won't form properly\n✓ Frost tolerance: Can grow in 4-8°C but slow\n\n📍 Soil Requirements:\n✓ pH: 6.0-7.5\n✓ Soil: Well-draining, rich in organic matter\n✓ Add 10-15 tons FYM/ha before sowing\n✓ NPK: N 120-150, P 60-80, K 60-80 kg/ha\n\n📊 " ++ result_region ++ " Calendar:\n- July-August: Plant for Sept-Nov harvest ✓ GOOD\n- September-October: Plant for Dec-Feb harvest ✓✓ BEST\n- January-February: Plant for April-May harvest ✓ GOOD\n- March-June: Avoid (too hot)\n\n🌱 Varieties for " ++ result_region ++ ":\n✓ Early: Green Express, Golden Acre (50-60 days)\n✓ Mid: Indra (60-75 days)\n✓ Late: Pride of India (90-120 days)\n\n💧 Irrigation:\n✓ 4-5 times per season\n✓ Keep soil moist (not waterlogged)\n✓ Drip irrigation recommended\n\n⏱️ Harvest: 60-120 days after transplanting"

def cabbage_title (result_region : String) : String :=
  "Cabbage Cultivation - Best Season in " ++ result_region

def vegetable_answer : String :=
  "🍅 Vegetable Seasonal Calendar:\n\n🍅 TOMATO:\n✓ Kharif: June-July sowing, Aug-Dec harvest\n✓ Rabi: October-November sowing, Dec-April harvest\n✓ Summer: February-March sowing, May-July harvest\n✓ Best: Rabi season (October-November) for quality\n✓ Temperature: 20-25°C ideal\n\n🥔 POTATO:\n✓ Rabi: September-October sowing (ONLY season)\n✓ Harvest: 90-120 days after sowing\n✓ Oct-Nov sowing → January-Feb harvest\n✓ Temperature: 15-20°C optimal\n✓ Cannot grow in summer (>25°C)\n\n🧅 ONION:\n✓ Kharif: May-June sowing, Aug-Oct harvest\n✓ Rabi: September-October sowing, March-May harvest\n✓ Best: Rabi (Sept-Oct) for larger bulbs\n✓ Temperature: 10-30°C tolerant\n✓ 120-150 days to harvest\n\n📍 For ANY Vegetable:\n✓ Check temperature requirements first\n✓ Avoid extreme heat/cold\n✓ Monsoon good for kharif crops\n✓ Winter good for rabi crops\n✓ Summer needs irrigation management"

def vegetable_title : String :=
  "Vegetable Seasonal Calendar"

def pest_answer : String :=
  "🐛 Pest Management Guide:\n\n📋 Common Agricultural Pests:\n✓ Aphids: Soft-bodied insects, weaken plants\n  → Control: Neem oil spray 3-5%, insecticidal soap\n  → Release ladybugs for biological control\n\n✓ Armyworm: Caterpillars that defoliate crops\n  → Control: Pheromone traps, spinosad spray\n  → Bacillus thuringiensis (Bt) spray\n\n✓ Whitefly: Transmits plant viruses\n  → Control: Yellow sticky traps, neem oil\n  → Remove infected leaves immediately\n\n✓ Mites: Feed on leaf sap\n  → Control: Sulfur dust, miticide spray\n  → Maintains high humidity\n\n🌿 Organic Solutions:\n✓ Neem oil: 3-5% spray (repeat every 10-15 days)\n✓ Panchagavya: 5% spray for pest + disease control\n✓ Cow urine: 10% spray as repellent\n✓ Intercropping: Plant marigold/garlic to repel pests\n\n🚫 IPM (Integrated Pest Management):\n✓ Cultural: Remove crop residues, rotate crops\n✓ Biological: Release natural predators\n✓ Chemical: Use only when organic fails\n✓ Mechanical: Hand-pick large pests"

def pest_title : String :=
  "Pest Management & Prevention"

def disease_answer : String :=
  "🍃 Disease Management Guide:\n\n🦠 Common Crop Diseases:\n✓ Early Blight (Potato/Tomato):\n  → Symptoms: Brown spots on lower leaves\n  → Control: Copper fungicide, remove infected leaves\n  → Prevention: Adequate spacing, drip irrigation\n\n✓ Powdery Mildew:\n  → Symptoms: White powdery coating on leaves\n  → Control: Sulfur dust 50g/10L water\n  → Control: Baking soda spray (5g/L)\n\n✓ Damping Off (Seedlings):\n  → Symptoms: Seedlings collapse at base\n  → Prevention: Sterilize soil, avoid overwatering\n  → Control: Trichoderma seed treatment\n\n✓ Leaf Spot:\n  → Control: Remove infected leaves\n  → Spray: Bordeaux mixture or copper fungicide\n  → Prevention: Avoid overhead irrigation\n\n✓ Root Rot (Wilting without water stress):\n  → Control: Improve drainage immediately\n  → Add Trichoderma/Pseudomonas to soil\n  → Reduce watering frequency\n\n🌿 Organic Fungicides:\n✓ Bordeaux Mixture: Copper+Lime, spray 1% solution\n✓ Sulfur Powder: For powdery mildew, 50g/10L\n✓ Trichoderma: Biological fungicide, soil treatment\n✓ Neem Oil: 3% spray for fungal+pest control\n\n✏️ Prevention is Key:\n✓ Proper crop rotation (2-3 years)\n✓ Clean farm tools between plants\n✓ Remove infected plant material\n✓ Maintain good air circulation"

def disease_title : String :=
  "Disease Management & Treatment"

def water_answer : String :=
  "💧 Water Management & Irrigation Guide:\n\n🚰 Irrigation Methods:\n✓ Flood/Basin Irrigation:\n  → For: Rice, sugarcane, pulses\n  → Frequency: Every 7-14 days\n  → Water use: 50-60 cm over season\n\n✓ Drip Irrigation:\n  → For: Vegetables, spices, horticulture\n  → Saves: 40-60% water vs flood\n  → Fertigation: Apply fertilizers through drip\n  → Frequency: Every 1-2 days\n\n✓ Sprinkler Irrigation:\n  → For: Wheat, maize, cotton\n  → Coverage: 80-85% uniform\n  → Saves: 30-50% water vs flood\n\n📊 Watering Schedule by Crop:\n✓ Rice: Standing water 5cm, drain 7-10 days before harvest\n✓ Wheat: 4-5 irrigations (CRI, 21, 45, 60, 75 days)\n✓ Cotton: 8-12 irrigations in season\n✓ Vegetables: Light, frequent watering\n✓ Sugarcane: Heavy irrigation every 10-15 days\n\n⚠️ Signs of Water Stress:\n✓ Wilting leaves = Underwatering\n✓ Yellowing + soft stems = Overwatering/Waterlogging\n✓ Leaf curl = Usually drought\n\n🏜️ Drought Management:\n✓ Use drought-resistant varieties\n✓ Add 1-2% mulch to retain moisture\n✓ Reduce nitrogen (use less N fertilizer)\n✓ Drip irrigation more efficient\n\n🌊 Flood Management:\n✓ Improve field drainage immediately\n✓ Add sand/compost to raise soil level\n✓ Don't plant submerged crops\n✓ Apply fungicides after flood (disease risk)"

def water_title : String :=
  "Water Management & Irrigation"

def crop_guide_answer (crop_name : String) : String :=
  "🌾 " ++ crop_name ++ " Cultivation Guide:\n\n📋 Basics:\n✓ Season: Depends on region (kharif, rabi, zaid)\n✓ Temperature: Varies by crop and variety\n✓ Soil pH: Generally 6.0-7.5 (crop-specific optimal)\n✓ Rainfall: 60-100 cm for most crops\n\n🔧 Soil Preparation:\n✓ Deep plowing (20-25 cm)\n✓ Add 5-10 tons FYM/compost per hectare\n✓ Mix sulfur/lime if pH needs adjustment\n✓ Remove weeds and stones\n\n🌱 Sowing:\n✓ Use certified seed (high germination)\n✓ Seed treatment: Use fungicide+insecticide\n✓ Sowing depth: 3-6 cm (crop-specific)\n✓ Spacing: 20-60 cm between rows\n\n📊 Nutrient Requirements (per hectare):\n✓ Nitrogen (N): 100-200 kg depending on crop\n✓ Phosphorus (P): 40-100 kg\n✓ Potassium (K): 40-100 kg\n✓ Apply 50% N+100% P+K at basal\n✓ Apply 50% N in split during season\n\n💧 Irrigation:\n✓ First irrigation at critical growth stage\n✓ Frequency based on soil + weather\n✓ 4-6 irrigations typical for most crops\n\n🚜 Pest & Disease:\n✓ Scout fields weekly for early detection\n✓ Use insecticides only when threshold reached\n✓ Rotate pesticide groups to prevent resistance\n\n⏱️ Harvest:\n✓ Harvest at physiological maturity for quality\n✓ Moisture content: 12-14% for safe storage\n✓ Thresh immediately after harvest\n✓ Dry before storage to prevent mold"

def crop_guide_title (crop_name : String) : String :=
  crop_name ++ " Cultivation & Management"

def soil_answer : String :=
  "🧪 Soil Health & Fertility Guide:\n\n📊 Soil Testing:\n✓ Get soil tested every 2-3 years\n✓ Take 10-15 samples per field\n✓ Sample 15-20 cm depth\n✓ Mix samples, send 500g to lab\n\n🔬 Key Tests:\n✓ pH: Target 6.0-7.5 for most crops\n✓ EC: Electrical conductivity (salinity)\n✓ Organic Matter: Aim for 2-3%\n✓ N, P, K: Macronutrient status\n✓ Zn, Fe, Mn, B: Micronutrients\n\n♻️ Improving Soil:\n✓ Add FYM: 5-10 tons/hectare yearly\n✓ Compost: 2-5 tons/hectare\n✓ Green manure: Legume crops, plow in\n✓ Mulching: 5-10 tons/hectare\n✓ Crop rotation: Include legumes every 2-3 years\n\n🌱 Organic Matter Benefits:\n✓ Improves water retention by 10-20%\n✓ Increases N availability\n✓ Improves soil structure\n✓ Enhances microbial activity\n✓ Reduces fertilizer needs by 15-25%\n\n⚖️ Nutrient Management:\n✓ Base on soil test results\n✓ Balance N:P:K ratio\n✓ Apply split applications\n✓ Monitor crop growth\n✓ Use both organic + inorganic for best results\n\n🔴 Signs of Deficiency:\n✓ Yellowing = Nitrogen deficiency\n✓ Purple color = Phosphorus deficiency\n✓ Brown/burnt edges = Potassium deficiency\n✓ Stunted growth + chlorosis = Micronutrient issue"

def soil_title : String :=
  "Soil Health & Fertility Management"

def cocoa_keywords : List String :=
  ["cocoa", "chocolate tree", "theobroma cacao"]

def ratnagiri_mango_keywords : List String :=
  ["ratnagiri", "mango", "mangoes", "ratnagiri mango", "mango ratnagiri", "konkan mango"]

def season_keywords : List String :=
  ["season", "timing", "when", "best time", "month", "sow", "plant", "grow"]

def region_keywords : List String :=
  ["karnataka", "maharashtra", "tamil nadu", "coorg", "wayanad", "region", "state", "area", "north", "south", "east", "west"]

def pest_keywords : List String :=
  ["pest", "insect", "bug", "aphid", "whitefly", "armyworm", "borer", "mite", "grasshopper", "thrips", "scale", "pest control", "infestation"]

def disease_keywords : List String :=
  ["disease", "blight", "rot", "wilt", "powdery", "fungal", "bacterial", "viral", "infection", "leaf spot", "damping off", "rust"]

def water_keywords : List String :=
  ["water", "irrigation", "drought", "flood", "waterlogging", "rainfall", "monsoon", "drip", "flood irrigation"]

def soil_keywords : List String :=
  ["soil", "fertility", "test", "analysis", "amendment", "compost", "manure", "organic matter"]

def chatbot_season_keywords : List String :=
  ["season", "timing", "when", "best time", "month", "sow", "plant", "grow"]

def crop_keywords : List (String × String) :=
  [("rice", "Rice"),
   ("wheat", "Wheat"),
   ("corn|maize", "Maize"),
   ("cotton", "Cotton"),
   ("sugarcane", "Sugarcane"),
   ("pulse|gram|chickpea|lentil", "Pulses"),
   ("vegetable|carrot|cabbage|onion|tomato", "Vegetables"),
   ("spice|turmeric|chili|cumin", "Spices"),
   ("oilseed|soybean|groundnut", "Oilseeds")]

def agricultural_knowledge_base : List KBEntry :=
  [  -- entry "rice_ph"
  { keywords := ["rice", "ph", "optimal", "rice ph", "rice cultivation", "rice soil"],
    title := "Optimal pH for Rice Cultivation",
    answer := "Rice thrives at pH 6.0-7.0. For any region:\n✓ Ideal pH: 6.0-7.0\n✓ Cannot grow well below pH 5.0\n✓ Nitrogen available at pH 6.5-7.0\n✓ Apply lime if pH < 5.5\n✓ Apply sulfur if pH > 8.0\n\nRice paddy fields benefit from maintaining standing water to buffer pH naturally." },
  -- entry "nitrogen"
  { keywords := ["nitrogen", "yellowing", "pale", "stunted", "deficiency", "nitrogen deficiency"],
    title := "Nitrogen Deficiency Management",
    answer := "Nitrogen deficiency signs: Yellowing leaves, stunted growth, poor yield.\n\nSolutions:\n✓ Urea: 50-100 kg/ha in 2-3 splits\n✓ FYM: 10-20 tons/ha\n✓ Green manure: Dhaincha or sesbania\n✓ Legume rotation: Every 2-3 years\n✓ Foliar urea spray: 2% (quick relief)\n\nTiming: 50% at sowing, 25% at vegetative, 25% at flowering" },
  -- entry "coffee"
  { keywords := ["coffee", "coorg", "coffee soil", "arabica", "coffee cultivation", "coffee region"],
    title := "Coffee in Coorg - Soil & Cultivation Guide",
    answer := "☕ Coorg (Kodagu) Coffee Guide:\n\n🌍 Ideal Conditions:\n✓ Altitude: 900-2000m (Coorg perfect for this)\n✓ Soil: Black soil, laterite\n✓ pH: 6.0-6.5 (slightly acidic)\n✓ Rainfall: 1500-3000mm\n✓ Shade: Sambaram, Dadap trees\n\n🔧 Soil Preparation:\n1. Add 10 tons FYM/ha\n2. Mix sulfur 500 kg/ha if pH high\n3. Ensure perfect drainage\n\n📊 Nutrients:\n✓ N: 150-200 kg/ha (split 3 times)\n✓ P: 75-100 kg/ha\n✓ K: 150-200 kg/ha\n✓ Zn & B: 5-10 kg/ha\n\n⏱️ Yield: 1.5-2 tons dried coffee/hectare" },
  -- entry "alkaline"
  { keywords := ["alkaline", "high ph", "lime", "limestone soil", "ph high"],
    title := "Alkaline Soil Management",
    answer := "Managing high pH soils (pH > 8.0):\n\n✓ Best Fertilizers:\n  - Ammonium Sulphate (lowers pH)\n  - Urea (acidifying effect)\n  - Zinc Sulphate for deficiency\n  - Iron Sulphate for chlorosis\n  - Sulfur: 500-1000 kg/ha\n\n✓ Suitable Crops:\n  - Maize, Sorghum, Wheat\n  - Gram, Lentil, Pea\n  - Mustard, Sunflower\n  - Beans, Cabbage, Carrot\n\n✓ Corrections:\n  1. Apply sulfur 500-1000 kg/ha\n  2. Add organic matter\n  3. Use chelated micronutrients\n  4. Increase irrigation to leach salts" },
  -- entry "crop_rotation"
  { keywords := ["rotation", "crop rotation", "sequence", "sustainable"],
    title := "Crop Rotation Strategy",
    answer := "Smart crop rotation system:\n\n3-Year Cycle:\nYear 1: Rice → Year 2: Wheat → Year 3: Legume (Gram)\n\n4-Year Cycle:\nYear 1: Cereal (Wheat) → Year 2: Legume (Pulse) → Year 3: Oilseed → Year 4: Cash crop\n\n✓ Benefits:\n- Breaks pest/disease cycles\n- Adds nitrogen via legumes\n- Reduces fertilizer costs\n- 20-30% higher productivity\n- Improves soil health\n\n✓ Include legumes (N-fixing) every 2-3 years\n✓ Alternate deep & shallow root crops" },
  -- entry "soil_test"
  { keywords := ["test", "testing", "analysis", "lab", "soil", "sample"],
    title := "Soil Testing Guide",
    answer := "Complete soil testing procedure:\n\n🔬 Tests Needed:\n✓ pH (nutrient availability)\n✓ Texture (water retention)\n✓ Organic Matter (soil health)\n✓ NPK (fertilizer needs)\n✓ Micronutrients (Zn, Fe, B, Mn)\n✓ Electrical Conductivity (salinity)\n\n📍 Sampling:\n1. Collect from 5-10 spots\n2. Take 15-20 cm depth\n3. Mix, take 500g sample\n4. Send to govt lab\n\n💰 Cost: ₹200-500\n⏱️ Results: 5-7 days\n\nLab gives exact fertilizer recommendations" },
  -- entry "phosphorus"
  { keywords := ["phosphorus", "purple", "poor root", "phosphorus deficiency"],
    title := "Phosphorus Management",
    answer := "Phosphorus deficiency identification & fix:\n\n⚠️ Signs:\n- Purple coloration on stems/leaves\n- Poor root development\n- Delayed maturity\n- Low grain/fruit\n- Stunted growth\n\n✅ Solutions:\n- SSP: 400-600 kg/ha\n- DAP: 200-300 kg/ha\n- Bone meal: 500-1000 kg/ha (organic)\n- Rock phosphate: 1000-2000 kg/ha (long-term)\n- FYM: 10-15 tons/ha\n\n💡 Apply 100% before sowing\n💡 Works best with organic matter" },
  -- entry "potassium"
  { keywords := ["potassium", "burnt", "scorched", "leaf edge", "potassium deficiency"],
    title := "Potassium Management",
    answer := "Potassium deficiency fix:\n\n⚠️ Symptoms:\n- Burnt/scorched leaf edges\n- Yellow-brown margins\n- Weak stems (lodging)\n- Poor disease resistance\n- Low fruit quality\n\n✅ Solutions:\n- MOP: 40-60 kg K₂O/ha\n- Potassium Nitrate: 100-150 kg/ha\n- K-Sulphate: 50-75 kg/ha\n- Wood ash: 1-2 tons/ha (organic)\n\n🔧 Apply:\n✓ 50% at sowing\n✓ 50% at flowering (better quality)\n\n💡 Increase K by 20-30 kg/year in deficit soils" },
  -- entry "micronutrient"
  { keywords := ["zinc", "iron", "boron", "manganese", "micro"],
    title := "Micronutrient Deficiencies",
    answer := "Micronutrient problems & solutions:\n\n🔍 Zinc (brown spots, stunted):\n✓ Zinc Sulphate: 20 kg/ha + 0.5% spray\n✓ Critical for rice, maize\n\n🔍 Iron (yellow leaves, green veins):\n✓ Iron Sulphate: 10-20 kg/ha\n✓ Common in high pH soils\n\n🔍 Boron (distorted leaves, cracked stems):\n✓ Borax: 10 kg/ha + 0.1% spray\n✓ Critical for oilseeds\n\n🔍 Manganese (grey spots):\n✓ Manganese Sulphate: 10 kg/ha\n✓ Common in alkaline soils\n\n💊 Spray Recipes:\n✓ Zn: 0.5% ZnSO₄ + 0.25% lime\n✓ Fe: 0.5% FeSO₄ + 0.25% lime\n✓ B: 0.1% Borax\n✓ Timing: 45-60 days after sowing" },
  -- entry "organic"
  { keywords := ["organic", "natural", "compost", "bio"],
    title := "Organic Farming System",
    answer := "Complete organic farming:\n\n🌱 Soil Build-up:\n- Compost: 5-10 tons/ha/year\n- Green manure: Dhaincha, sesbania\n- Mulch: 5-10 tons/ha\n- Vermicompost: 2-5 tons/ha\n\n🔄 3-4 Year Rotation:\nYear 1: Legume (Pulse) → Year 2: Cereal (Wheat) → Year 3: Cash crop → Year 4: Oilseed\n\n🐝 Pest Management:\n- Trichoderma spray\n- Neem oil: 3-5%\n- Panchgavya: 5%\n- Trichogramma release\n\n✏️ Certification: 2-year transition\n💰 Premium: 20-30% higher price" },
  -- entry "wheat"
  { keywords := ["wheat", "rabi", "winter"],
    title := "Wheat Cultivation",
    answer := "Wheat farming guide:\n\n🌾 Requirements:\n- pH: 6.0-7.5\n- Soil: Loamy to clay\n- Season: October-November (rabi)\n- Rainfall: 60-75 cm\n- Temperature: 15-20°C\n\n🔧 Nutrients:\n- N: 120-150 kg/ha (50% sowing, 50% tiller)\n- P: 60-80 kg/ha\n- K: 40-60 kg/ha\n- Zn: 5-10 kg/ha\n\n💧 Irrigation: 4-5 times\n⏱️ Yield: 40-50 quintals/hectare" },
  -- entry "maize"
  { keywords := ["maize", "corn", "kharif"],
    title := "Maize Cultivation",
    answer := "Maize (corn) farming guide:\n\n🌽 Requirements:\n- pH: 6.0-7.5\n- Soil: Well-drained loamy\n- Season: June-July (kharif) or October (rabi)\n- Temperature: 21-27°C\n\n🔧 Nutrients:\n- N: 150-200 kg/ha (split 3 times)\n- P: 80-100 kg/ha\n- K: 60-80 kg/ha\n- Zn: 20 kg/ha if deficient\n\n🌱 Sowing:\n- Spacing: 60cm rows × 25cm plants\n- Depth: 5-6 cm\n- Seed rate: 20-25 kg/ha\n\n⏱️ Yield: 50-60 quintals/ha (hybrid)" }]

/-- The tail of `generate_chatbot_response` past the season/timing block:
pest, disease, water, crop-specific and soil intents, in source order, on the
lowercased question `q`; `none` when no trigger fires. -/
def chatbot_after_season (q : String) : Option KnowledgeAnswer :=
  -- PEST & DISEASE DETECTION
  if pest_keywords.any (fun kw => strIn kw q) then
    some { answer := pest_answer, title := pest_title,
           confidence := 0.85, source_count := 1 }
  else if disease_keywords.any (fun kw => strIn kw q) then
    some { answer := disease_answer, title := disease_title,
           confidence := 0.85, source_count := 1 }
  -- WATER MANAGEMENT & IRRIGATION
  else if water_keywords.any (fun kw => strIn kw q) then
    some { answer := water_answer, title := water_title,
           confidence := 0.82, source_count := 1 }
  else
    -- CROP-SPECIFIC QUESTIONS (first matching pattern of `crop_keywords` wins)
    match crop_keywords.find? (fun pc => ((pySplitBar pc.1).any (fun word => strIn word q))) with
    | some pc =>
      some { answer := crop_guide_answer pc.2, title := crop_guide_title pc.2,
             confidence := 0.8, source_count := 1 }
    | none =>
      -- SOIL FERTILITY & TESTING
      if soil_keywords.any (fun kw => strIn kw q) then
        some { answer := soil_answer, title := soil_title,
               confidence := 0.8, source_count := 1 }
      else none

/-- `generate_chatbot_response`: the rule-based intent responder.  The
season/timing block is checked first; inside it only the cabbage and
tomato/potato/onion intents return, any other seasonal question falls through
to `chatbot_after_season`. -/
def generate_chatbot_response (question : String) : Option KnowledgeAnswer :=
  let q := pyLower question
  if chatbot_season_keywords.any (fun kw => strIn kw q) then
    if strIn "cabbage" q then
      let result_region :=
        if region_keywords.any (fun r => strIn r q) then "Karnataka" else "India"
      some { answer := cabbage_answer result_region,
             title := cabbage_title result_region,
             confidence := 0.95, source_count := 1 }
    else if strIn "tomato" q || strIn "potato" q || strIn "onion" q then
      some { answer := vegetable_answer, title := vegetable_title,
             confidence := 0.9, source_count := 1 }
    else chatbot_after_season q
  else chatbot_after_season q

/-- `extract_title_from_question`: title from question type. -/
def extract_title_from_question (question : String) : String :=
  let q := pyLower question
  if strIn "how" q then "How To Guide"
  else if strIn "what" q then "Information"
  else if strIn "when" q then "Timing Guide"
  else if strIn "which" q || strIn "best" q then "Recommendation"
  else if strIn "why" q then "Explanation"
  else if strIn "problem" q || strIn "issue" q || strIn "problem" q then "Solution"
  else "Agricultural Information"

/-- The contribution of one knowledge-base keyword to the score of its entry in
`find_best_match_in_kb`: keywords of length at most 1 are skipped; a whole
keyword occurring in the question scores 10; otherwise each constituent word of
length above 1 occurring in the question scores 5. -/
def keyword_score (q_lower keyword : String) : Nat :=
  if keyword.length ≤ 1 then 0
  else if strIn keyword q_lower then 10
  else 5 * ((pyWords keyword).filter
    (fun word => word.length > 1 && strIn word q_lower)).length

/-- The score `find_best_match_in_kb` accumulates for one entry over its
keyword list (the source's `for keyword in keywords` loop, summed). -/
def entry_score (q_lower : String) : List String → Nat
  | [] => 0
  | keyword :: rest => keyword_score q_lower keyword + entry_score q_lower rest

/-- The spec's scoring rule for a keyword (section 4.5 stage 4): an exact
substring hit scores 10 points, else 5 points per constituent word occurring in
the question (no length screen is mentioned in the spec). -/
def spec_keyword_score (q_lower keyword : String) : Nat :=
  if strIn keyword q_lower then 10
  else 5 * ((pyWords keyword).filter (fun word => strIn word q_lower)).length

/-- The spec's score of one entry: `spec_keyword_score` summed over its
keywords. -/
def spec_entry_score (q_lower : String) : List String → Nat
  | [] => 0
  | keyword :: rest => spec_keyword_score q_lower keyword + spec_entry_score q_lower rest

/-- A keyword on which the length screens of `keyword_score` cannot fire: the
keyword and each of its constituent words are longer than one character.
Every keyword of the shipped knowledge base is of this kind. -/
def good_keyword (kw : String) : Bool :=
  1 < kw.length && (pyWords kw).all (fun w => 1 < w.length)

/-- The fold of `find_best_match_in_kb` over the knowledge base: the running
best entry and score are replaced only on a strictly larger score (the
initial best score is 0, so an entry scoring 0 is never selected). -/
def find_best_go (q_lower : String) : List KBEntry → Option (KBEntry × Nat) → Option (KBEntry × Nat)
  | [], best => best
  | entry :: rest, best =>
    let score := entry_score q_lower entry.keywords
    let best_score := match best with | none => 0 | some (_, s) => s
    if score > best_score then find_best_go q_lower rest (some (entry, score))
    else find_best_go q_lower rest best

/-- `find_best_match_in_kb(question, kb)`: the best-scoring entry with its
score (the source returns the entry dictionary with a `score` key written into
it), or `none` when every entry scores 0. -/
def find_best_match_in_kb (question : String) (kb : List KBEntry) : Option (KBEntry × Nat) :=
  let q_lower := pyStrip (pyLower question)
  find_best_go q_lower kb none

/-- The capabilities `query_knowledge_base` consults, as explicit state:
`kb` is the static dictionary `get_agricultural_knowledge_base()` returns,
`vectorDb` is `retrieve_from_vector_db(question, top_k)`, `pdfDb` is
`retrieve_from_pdf_db(question, top_k)`, `ragAnswer` is
`generate_rag_answer(question, context)` (`none` models a `None` return) and
`useLlm` is the `use_llm` flag.  An `Except.error` models the capability
raising, which the `try/except` of the source catches. -/
structure Env where
  kb : List KBEntry
  vectorDb : String → Nat → Except String (List String)
  pdfDb : String → Nat → Except String (List PdfDoc)
  ragAnswer : String → String → Except String (Option String)
  useLlm : Bool

/-- The priority-1 result inside the `try` block: the rule-based responder is
consulted only when the question contains a season keyword. -/
def p1_result (question q_lower : String) : Option KnowledgeAnswer :=
  if season_keywords.any (fun kw => strIn kw q_lower) then
    generate_chatbot_response question
  else none

/-- The priority-2 result from the retrieved vector-db documents: the first
document, when it contains "A:", yields the text between the first and the
second "A:" (Python's `best_doc.split("A:")[1]`), stripped and cut to 700
characters. -/
def p2_extract (question : String) : List String → Option KnowledgeAnswer
  | [] => none
  | best_doc :: _ =>
    if strIn "A:" best_doc then
      let answer_part := pyStrip (((best_doc.splitOn "A:").getD 1 ""))
      some { answer := answer_part.take 700,
             title := extract_title_from_question question,
             confidence := 0.92, source_count := 1,
             source := some "vector_db" }
    else none

/-- The priority-5 response built from retrieved PDF chunks.  The source
deduplicates the contributing file names through `list(set(...))`, whose
order Python does not define; first-occurrence order stands in for it here
(`source_count`, the only field a property below touches, does not depend on
the order). -/
def pdf_response (pdf_docs : List PdfDoc) : KnowledgeAnswer :=
  let pdf_context := String.intercalate "\n\n" (pdf_docs.map (fun d => d.text))
  let sources := (pdf_docs.map (fun d => d.source)).eraseDups
  { answer := pdf_context.take 1500,
    title := "Agricultural Reference (from PDFs)",
    confidence := 0.89, source_count := sources.length,
    sources := some sources, source := some "pdf_documents" }

/-- The terminal fallback answer (the question is interpolated into the
text). -/
def fallback_answer (question : String) : KnowledgeAnswer :=
  { answer := fallback_text_head ++ question ++ fallback_text_tail,
    title := "Information Not Available",
    confidence := 0.15, source_count := 0 }

/-- The answer the `except` handler of `query_knowledge_base` returns. -/
def query_error_answer : KnowledgeAnswer :=
  { answer := query_error_text, title := "Query Error",
    confidence := 0.0, source_count := 0 }

/-- The priority-0 hardcoded cocoa response. -/
def cocoa_response : KnowledgeAnswer :=
  { answer := cocoa_answer, title := "Cocoa Tree Cultivation Guide",
    confidence := 0.99, source_count := 1,
    sources := some ["internal_agronomy_guide"], source := some "hardcoded" }

/-- The priority-0.5 hardcoded Ratnagiri-mango response. -/
def ratnagiri_response : KnowledgeAnswer :=
  { answer := ratnagiri_answer, title := "Ratnagiri Mangoes - Maharashtra's Pride",
    confidence := 0.98, source_count := 1,
    sources := some ["maharashtra_agricultural_guide"], source := some "hardcoded" }

/-- Priorities 4, 5 and 6 of the cascade and the terminal fallback (the part of
the `try` block below the priority-3 knowledge-base stage). -/
def stages_after_kb (env : Env) (question : String) :
    Except String (KnowledgeAnswer × List StoreWrite) :=
  -- PRIORITY 4: intelligent response generator
  match generate_chatbot_response question with
  | some smart_response => .ok (smart_response, [])
  | none =>
  -- PRIORITY 5: PDF retrieval
  match env.pdfDb question 3 with
  | .error e => .error e
  | .ok pdf_docs =>
  if ¬ pdf_docs.isEmpty then .ok (pdf_response pdf_docs, [])
  else
  -- PRIORITY 6: LLM + RAG (with learning)
  if env.useLlm then
    match env.vectorDb question TOP_K with
    | .error e => .error e
    | .ok context_docs =>
    match env.pdfDb question 2 with
    | .error e => .error e
    | .ok pdf_docs2 =>
    let context_parts := context_docs ++ pdf_docs2.map (fun d => d.text)
    let context :=
      if ¬ context_parts.isEmpty then String.intercalate "\n\n" (context_parts.take 3)
      else ""
    match env.ragAnswer question context with
    | .error e => .error e
    | .ok (some llm_answer) =>
      let response : KnowledgeAnswer :=
        { answer := llm_answer, title := extract_title_from_question question,
          confidence := 0.87, source_count := 1, source := some "llm_rag" }
      .ok (response, [StoreWrite.addVector question llm_answer,
                      StoreWrite.saveLearned question response])
    | .ok none => .ok (fallback_answer question, [])
  else .ok (fallback_answer question, [])

/-- The `try` block of `query_knowledge_base` (priorities 1 to 6 and the
terminal fallback); an `Except.error` is a capability raising, caught by the
handler in `query_knowledge_base`. -/
def query_try_body (env : Env) (question q_lower : String) :
    Except String (KnowledgeAnswer × List StoreWrite) :=
  -- PRIORITY 1: seasonal/special questions
  match p1_result question q_lower with
  | some smart_response => .ok (smart_response, [])
  | none =>
  -- PRIORITY 2: vector DB (learned + cached)
  match env.vectorDb question 2 with
  | .error e => .error e
  | .ok vec_docs =>
  match p2_extract question vec_docs with
  | some response => .ok (response, [])
  | none =>
  -- PRIORITY 3: hardcoded KB, strong matches only
  match find_best_match_in_kb question env.kb with
  | some es =>
    if es.2 ≥ 7 then
      .ok ({ answer := es.1.answer, title := es.1.title,
             confidence := min 0.95 (0.5 + (es.2 : ℚ) * 0.03),
             source_count := 1, source := some "kb" }, [])
    else stages_after_kb env question
  | none => stages_after_kb env question

/-- `query_knowledge_base(question)` (its `top_k` parameter is unused in the
source body; `use_llm` lives in the environment).  The two hardcoded stages
run before the `try` block, on `question.lower().strip()`; the answer is
returned next to the list of learning-store writes the call performed. -/
def query_knowledge_base (env : Env) (question : String) :
    KnowledgeAnswer × List StoreWrite :=
  let q_lower := pyStrip (pyLower question)
  -- PRIORITY 0: cocoa / chocolate tree
  if cocoa_keywords.any (fun kw => strIn kw q_lower) then (cocoa_response, [])
  -- PRIORITY 0.5: Ratnagiri mangoes
  else if ratnagiri_mango_keywords.any (fun kw => strIn kw q_lower) then
    (ratnagiri_response, [])
  else
    match query_try_body env question q_lower with
    | .ok result => result
    | .error _ => (query_error_answer, [])

/-- A question fires a hardcoded (priority 0 or 0.5) trigger of
`query_knowledge_base`. -/
def hardcoded_trigger (question : String) : Bool :=
  let q_lower := pyStrip (pyLower question)
  cocoa_keywords.any (fun kw => strIn kw q_lower)
    || ratnagiri_mango_keywords.any (fun kw => strIn kw q_lower)

/-- Every cascade stage inside the `try` block yields no answer for `question`
under `env`: no hardcoded trigger, the rule-based responder declines, both
vector-db retrievals come back empty, the best knowledge-base match (if any)
scores below 7, both PDF retrievals come back empty, and the generative
backend returns `None`. -/
def all_stages_miss (env : Env) (question : String) : Prop :=
  hardcoded_trigger question = false ∧
  generate_chatbot_response question = none ∧
  env.vectorDb question 2 = .ok [] ∧
  (∀ es, find_best_match_in_kb question env.kb = some es → es.2 < 7) ∧
  env.pdfDb question 3 = .ok [] ∧
  env.vectorDb question TOP_K = .ok [] ∧
  env.pdfDb question 2 = .ok [] ∧
  env.ragAnswer question "" = .ok none

/-- An environment with the shipped static knowledge base and every external
capability present but empty: no learned documents, no PDFs, a generative
backend that declines every prompt. -/
def quietEnv : Env :=
  { kb := agricultural_knowledge_base,
    vectorDb := fun _ _ => .ok [],
    pdfDb := fun _ _ => .ok [],
    ragAnswer := fun _ _ => .ok none,
    useLlm := true }

/-- An environment whose vector-db capability raises on every call. -/
def crashEnv : Env :=
  { kb := agricultural_knowledge_base,
    vectorDb := fun _ _ => .error "chromadb unavailable",
    pdfDb := fun _ _ => .ok [],
    ragAnswer := fun _ _ => .ok none,
    useLlm := true }

/-- An environment with no knowledge base, a learned store holding one
cabbage document, one cached PDF chunk and a generative backend that always
answers: distinct from `quietEnv` in every capability. -/
def busyEnv : Env :=
  { kb := [],
    vectorDb := fun _ _ => .ok ["Q: cabbage A: Grow cabbage in winter."],
    pdfDb := fun _ _ => .ok [{ text := "Cabbage likes cool weather.", source := "veg.pdf" }],
    ragAnswer := fun _ _ => .ok (some "A generated answer."),
    useLlm := false }

end KnowledgeBase

/-!
Claim theorems.  Helper lemmas about the string machinery and the keyword
scorer come first; each claim's theorem follows with its doc comment.
-/

open SoilFertility KnowledgeBase

/-- Helper: `leadsList` decides the list-prefix relation. -/
theorem leadsList_eq_true_iff (a b : List Char) :
    leadsList a b = true ↔ a <+: b := by
  induction a generalizing b with
  | nil => simp [leadsList]
  | cons x xs ih =>
    cases b with
    | nil => simp [leadsList]
    | cons y ys => simp [leadsList, ih, List.cons_prefix_cons]

/-- Helper: `subList` decides the contiguous-sublist relation. -/
theorem subList_eq_true_iff (a b : List Char) :
    subList a b = true ↔ a <:+: b := by
  induction b with
  | nil => cases a <;> simp [subList, List.infix_nil]
  | cons c cs ih =>
    simp [subList, leadsList_eq_true_iff, ih, List.infix_cons_iff]

/-- Helper: substring containment is transitive. -/
theorem strIn_trans {a b c : String} (h1 : strIn a b = true)
    (h2 : strIn b c = true) : strIn a c = true := by
  simp only [strIn, subList_eq_true_iff] at *
  exact h1.trans h2

/-- Helper: the cocoa trigger is exactly the disjunction of its three
substring tests. -/
theorem cocoa_any_iff (q : String) :
    cocoa_keywords.any (fun kw => strIn kw q)
      = (strIn "cocoa" q || strIn "chocolate tree" q || strIn "theobroma cacao" q) := by
  simp [cocoa_keywords, Bool.or_assoc]

/-- Helper: the Ratnagiri-mango trigger collapses to three substring tests;
the other three keywords all contain "mango" as a substring, so they are
redundant. -/
theorem ratnagiri_any_iff (q : String) :
    ratnagiri_mango_keywords.any (fun kw => strIn kw q)
      = (strIn "ratnagiri" q || strIn "mango" q || strIn "mangoes" q) := by
  by_cases hm : strIn "mango" q = true
  · simp [ratnagiri_mango_keywords, hm]
  · simp only [Bool.not_eq_true] at hm
    have hnm : ¬ strIn "mango" q = true := by simp [hm]
    have h4 : strIn "mangoes" q = false := by
      cases h : strIn "mangoes" q with
      | false => rfl
      | true => exact absurd (strIn_trans (by decide) h) hnm
    have h5 : strIn "ratnagiri mango" q = false := by
      cases h : strIn "ratnagiri mango" q with
      | false => rfl
      | true => exact absurd (strIn_trans (by decide) h) hnm
    have h6 : strIn "mango ratnagiri" q = false := by
      cases h : strIn "mango ratnagiri" q with
      | false => rfl
      | true => exact absurd (strIn_trans (by decide) h) hnm
    have h7 : strIn "konkan mango" q = false := by
      cases h : strIn "konkan mango" q with
      | false => rfl
      | true => exact absurd (strIn_trans (by decide) h) hnm
    simp [ratnagiri_mango_keywords, hm, h4, h5, h6, h7]

/-- Helper: on a keyword whose length screens cannot fire, the source's
keyword score equals the spec's scoring formula. -/
theorem keyword_score_eq_spec (q kw : String) (h : good_keyword kw = true) :
    keyword_score q kw = spec_keyword_score q kw := by
  simp only [good_keyword, Bool.and_eq_true, List.all_eq_true, decide_eq_true_eq] at h
  obtain ⟨h1, h2⟩ := h
  simp only [keyword_score, spec_keyword_score]
  rw [if_neg (by omega : ¬ kw.length ≤ 1)]
  by_cases hs : strIn kw q = true
  · simp [hs]
  · simp only [Bool.not_eq_true] at hs
    simp only [hs, Bool.false_eq_true, if_false]
    congr 1
    apply congrArg
    apply List.filter_congr
    intro w hw
    have := h2 w hw
    simp [this]

/-- Helper: the entry score equals the spec's entry score when every keyword
passes the length screens. -/
theorem entry_score_eq_spec (q : String) (kws : List String)
    (h : kws.all good_keyword = true) :
    entry_score q kws = spec_entry_score q kws := by
  induction kws with
  | nil => rfl
  | cons kw rest ih =>
    simp only [List.all_cons, Bool.and_eq_true] at h
    simp only [entry_score, spec_entry_score]
    rw [keyword_score_eq_spec q kw h.1, ih h.2]

/-- Helper: every keyword of the shipped knowledge base, and every word of
every such keyword, is longer than one character. -/
theorem kb_keywords_good :
    agricultural_knowledge_base.all (fun e => e.keywords.all good_keyword) = true := by
  decide

/-- C1: in every assessment, `limiting_factor_strength` is the minimum of the
pH, EC and OC correction factors (hence bounded by each of them), and the
`limiting_factor` name is chosen by testing the pH factor against that
minimum first, then the EC factor, then defaulting to OC — first match wins
on ties. -/
theorem liebig_limiting_factor_is_min (N P K pH EC OC : ℚ) :
    (apply_liebig_law N P K pH EC OC).limiting_factor_strength
        = min (assess_ph_gatekeeper pH).2
            (min (assess_ec_impact EC).2 (assess_organic_carbon OC).2)
    ∧ (apply_liebig_law N P K pH EC OC).limiting_factor_strength
        ≤ (assess_ph_gatekeeper pH).2
    ∧ (apply_liebig_law N P K pH EC OC).limiting_factor_strength
        ≤ (assess_ec_impact EC).2
    ∧ (apply_liebig_law N P K pH EC OC).limiting_factor_strength
        ≤ (assess_organic_carbon OC).2
    ∧ (apply_liebig_law N P K pH EC OC).limiting_factor
        = (if (assess_ph_gatekeeper pH).2
              = (apply_liebig_law N P K pH EC OC).limiting_factor_strength
           then "pH (Nutrient Availability)"
           else if (assess_ec_impact EC).2
              = (apply_liebig_law N P K pH EC OC).limiting_factor_strength
           then "EC / Salinity (Osmotic Stress)"
           else "Organic Carbon (Biological Activity)") := by
  refine ⟨rfl, ?_, ?_, ?_, rfl⟩
  · exact min_le_left _ _
  · exact le_trans (min_le_right _ _) (min_le_left _ _)
  · exact le_trans (min_le_right _ _) (min_le_right _ _)

/-- C2: whenever `limiting_factor_strength < 0.3`, the returned
classification is INFERTILE, whatever the decision table produced. -/
theorem liebig_infertile_override (N P K pH EC OC : ℚ)
    (h : (apply_liebig_law N P K pH EC OC).limiting_factor_strength < 0.3) :
    (apply_liebig_law N P K pH EC OC).fertility_classification = "INFERTILE" := by
  show (if (apply_liebig_law N P K pH EC OC).limiting_factor_strength < 0.3
        then "INFERTILE" else _) = "INFERTILE"
  rw [if_pos h]

/-- C2 witness: the override hypothesis holds at Field A (N=500, P=20, K=250,
pH=4.5, EC=1.5, OC=0.8), whose strength is 0.2, and the classification there
is INFERTILE. -/
theorem liebig_infertile_override_witness :
    (apply_liebig_law 500 20 250 4.5 1.5 0.8).limiting_factor_strength < 0.3
    ∧ (apply_liebig_law 500 20 250 4.5 1.5 0.8).fertility_classification
        = "INFERTILE" := by
  have h : (apply_liebig_law 500 20 250 4.5 1.5 0.8).limiting_factor_strength < 0.3 := by
    norm_num [apply_liebig_law, classify_nutrient_level, assess_ph_gatekeeper,
      assess_ec_impact, assess_organic_carbon, calculate_index_score, min_def,
      HIGHLY_ACIDIC_UPPER, OPTIMAL_LOWER, OPTIMAL_UPPER, ALKALINE_LOWER,
      GOOD_UPPER, MODERATE_UPPER, LOW_UPPER, AVERAGE_UPPER,
      N_LOW, N_MEDIUM_UPPER, P_LOW, P_MEDIUM_UPPER, K_LOW, K_MEDIUM_UPPER]
  exact ⟨h, liebig_infertile_override 500 20 250 4.5 1.5 0.8 h⟩

/-- C3: the classification equals the spec's top-down decision table, with
the INFERTILE override applied after it; on the sample N=400, P=20, K=200,
pH=6.8, EC=1.2, OC=0.9 the classification is OPTIMAL. -/
theorem liebig_classification_table :
    (∀ N P K pH EC OC : ℚ,
        (apply_liebig_law N P K pH EC OC).fertility_classification
          = (if (apply_liebig_law N P K pH EC OC).limiting_factor_strength < 0.3
             then "INFERTILE"
             else classification_table_spec
                    (apply_liebig_law N P K pH EC OC).final_score
                    (apply_liebig_law N P K pH EC OC).limiting_factor_strength
                    (assess_ph_gatekeeper pH).2))
    ∧ (apply_liebig_law 400 20 200 6.8 1.2 0.9).fertility_classification
        = "OPTIMAL" := by
  refine ⟨fun _ _ _ _ _ _ => rfl, ?_⟩
  norm_num [apply_liebig_law, classify_nutrient_level, assess_ph_gatekeeper,
    assess_ec_impact, assess_organic_carbon, calculate_index_score, min_def,
    HIGHLY_ACIDIC_UPPER, OPTIMAL_LOWER, OPTIMAL_UPPER, ALKALINE_LOWER,
    GOOD_UPPER, MODERATE_UPPER, LOW_UPPER, AVERAGE_UPPER,
    N_LOW, N_MEDIUM_UPPER, P_LOW, P_MEDIUM_UPPER, K_LOW, K_MEDIUM_UPPER]

/-- C4: the three gatekeeper assessors realise exactly the spec's step
functions, with the stated boundary inclusions; in particular pH 5.5 gives
0.6, pH 6.0 and 7.5 give 1.0, pH 8.49 gives 0.7 and pH 8.5 gives 0.2, with
EC and OC boundaries included as stated. -/
theorem gatekeeper_boundary_behavior :
    (∀ ph : ℚ, (assess_ph_gatekeeper ph).2 = ph_factor_spec ph)
    ∧ (∀ ec : ℚ, (assess_ec_impact ec).2 = ec_factor_spec ec)
    ∧ (∀ oc : ℚ, (assess_organic_carbon oc).2 = oc_factor_spec oc)
    ∧ assess_ph_gatekeeper 5.5 = ("Suboptimal (5.5-6.0)", 0.6)
    ∧ assess_ph_gatekeeper 6.0 = ("Optimal (6.0-7.5)", 1.0)
    ∧ assess_ph_gatekeeper 7.5 = ("Optimal (6.0-7.5)", 1.0)
    ∧ assess_ph_gatekeeper 8.49 = ("Slightly Alkaline (7.5-8.5)", 0.7)
    ∧ assess_ph_gatekeeper 8.5 = ("Highly Alkaline (> 8.5)", 0.2)
    ∧ assess_ec_impact 2.0 = ("Good (0-2 dS/m)", 1.0)
    ∧ assess_ec_impact 4.0 = ("Moderate (2-4 dS/m)", 0.6)
    ∧ assess_ec_impact 4.01 = ("Saline/Infertile (> 4 dS/m)", 0.1)
    ∧ assess_organic_carbon 0.5 = ("Average (0.5-0.75%)", 0.6)
    ∧ assess_organic_carbon 0.75 = ("Average (0.5-0.75%)", 0.6)
    ∧ assess_organic_carbon 0.76 = ("High (> 0.75%)", 1.0) := by
  refine ⟨?_, ?_, ?_, ?_, ?_, ?_, ?_, ?_, ?_, ?_, ?_, ?_, ?_, ?_⟩
  · intro ph
    rcases lt_or_le ph (5.5 : ℚ) with h1 | h1
    · simp [assess_ph_gatekeeper, ph_factor_spec, HIGHLY_ACIDIC_UPPER, h1]
    · rcases lt_or_le ph (6.0 : ℚ) with h2 | h2
      · simp [assess_ph_gatekeeper, ph_factor_spec, HIGHLY_ACIDIC_UPPER, OPTIMAL_LOWER,
          not_lt.mpr h1, h1, h2]
      · rcases le_or_lt ph (7.5 : ℚ) with h3 | h3
        · simp [assess_ph_gatekeeper, ph_factor_spec, HIGHLY_ACIDIC_UPPER, OPTIMAL_LOWER,
            OPTIMAL_UPPER, not_lt.mpr h1, not_lt.mpr h2, h2, h3]
        · rcases lt_or_le ph (8.5 : ℚ) with h4 | h4
          · simp [assess_ph_gatekeeper, ph_factor_spec, HIGHLY_ACIDIC_UPPER, OPTIMAL_LOWER,
              OPTIMAL_UPPER, ALKALINE_LOWER, not_lt.mpr h1, not_lt.mpr h2,
              not_le.mpr h3, h3, h4]
          · simp [assess_ph_gatekeeper, ph_factor_spec, HIGHLY_ACIDIC_UPPER, OPTIMAL_LOWER,
              OPTIMAL_UPPER, ALKALINE_LOWER, not_lt.mpr h1, not_lt.mpr h2,
              not_le.mpr h3, not_lt.mpr h4]
  · intro ec
    rcases le_or_lt ec (2.0 : ℚ) with h1 | h1
    · simp [assess_ec_impact, ec_factor_spec, GOOD_UPPER, h1]
    · rcases le_or_lt ec (4.0 : ℚ) with h2 | h2
      · simp [assess_ec_impact, ec_factor_spec, GOOD_UPPER, MODERATE_UPPER,
          not_le.mpr h1, h1, h2]
      · simp [assess_ec_impact, ec_factor_spec, GOOD_UPPER, MODERATE_UPPER,
          not_le.mpr h1, not_le.mpr h2]
  · intro oc
    rcases lt_or_le oc (0.5 : ℚ) with h1 | h1
    · simp [assess_organic_carbon, oc_factor_spec, LOW_UPPER, h1]
    · rcases le_or_lt oc (0.75 : ℚ) with h2 | h2
      · simp [assess_organic_carbon, oc_factor_spec, LOW_UPPER, AVERAGE_UPPER,
          not_lt.mpr h1, h1, h2]
      · simp [assess_organic_carbon, oc_factor_spec, LOW_UPPER, AVERAGE_UPPER,
          not_lt.mpr h1, not_le.mpr h2]
  all_goals norm_num [assess_ph_gatekeeper, assess_ec_impact, assess_organic_carbon,
    HIGHLY_ACIDIC_UPPER, OPTIMAL_LOWER, OPTIMAL_UPPER, ALKALINE_LOWER,
    GOOD_UPPER, MODERATE_UPPER, LOW_UPPER, AVERAGE_UPPER]

/-- C5 counterexample: on the sample N=500, P=20, K=250, pH=4.5, EC=1.5,
OC=0.8 the code classifies nitrogen and potassium as "Fertile", not
"Very Fertile" as the claim states (500 is not above the 560 upper nitrogen
threshold and 250 is not above the 280 upper potassium threshold). -/
theorem sample_field_a_bands_counterexample :
    (apply_liebig_law 500 20 250 4.5 1.5 0.8).n_class = "Fertile"
    ∧ (apply_liebig_law 500 20 250 4.5 1.5 0.8).n_class ≠ "Very Fertile"
    ∧ (apply_liebig_law 500 20 250 4.5 1.5 0.8).k_class = "Fertile"
    ∧ (apply_liebig_law 500 20 250 4.5 1.5 0.8).k_class ≠ "Very Fertile" := by
  have hn : (apply_liebig_law 500 20 250 4.5 1.5 0.8).n_class = "Fertile" := by
    norm_num [apply_liebig_law, classify_nutrient_level,
      N_LOW, N_MEDIUM_UPPER, P_LOW, P_MEDIUM_UPPER, K_LOW, K_MEDIUM_UPPER]
  have hk : (apply_liebig_law 500 20 250 4.5 1.5 0.8).k_class = "Fertile" := by
    norm_num [apply_liebig_law, classify_nutrient_level,
      (show ("K" : String) ≠ "N" from by decide),
      (show ("K" : String) ≠ "P" from by decide),
      N_LOW, N_MEDIUM_UPPER, P_LOW, P_MEDIUM_UPPER, K_LOW, K_MEDIUM_UPPER]
  refine ⟨hn, ?_, hk, ?_⟩
  · rw [hn]; decide
  · rw [hk]; decide

/-- C5 amended: on the sample N=500, P=20, K=250, pH=4.5, EC=1.5, OC=0.8 the
pH correction 0.2 is the minimum (limiting factor pH, strength 0.2, forced
INFERTILE), while N, P and K classify as FERTILE, FERTILE and FERTILE under
the per-nutrient thresholds (N: 280/560; P: 10/25; K: 110/280; below LOW is
Infertile, at or above LOW and at or below MEDIUM_UPPER is Fertile, above
MEDIUM_UPPER is Very Fertile). -/
theorem sample_field_a_assessment :
    (∀ v : ℚ, classify_nutrient_level v "N"
        = (if v < 280 then "Infertile"
           else if v ≤ 560 then "Fertile" else "Very Fertile"))
    ∧ (∀ v : ℚ, classify_nutrient_level v "P"
        = (if v < 10 then "Infertile"
           else if v ≤ 25 then "Fertile" else "Very Fertile"))
    ∧ (∀ v : ℚ, classify_nutrient_level v "K"
        = (if v < 110 then "Infertile"
           else if v ≤ 280 then "Fertile" else "Very Fertile"))
    ∧ (apply_liebig_law 500 20 250 4.5 1.5 0.8).ph_correction = 0.2
    ∧ (apply_liebig_law 500 20 250 4.5 1.5 0.8).ec_correction = 1.0
    ∧ (apply_liebig_law 500 20 250 4.5 1.5 0.8).oc_quality = 1.0
    ∧ (apply_liebig_law 500 20 250 4.5 1.5 0.8).limiting_factor_strength = 0.2
    ∧ (apply_liebig_law 500 20 250 4.5 1.5 0.8).limiting_factor
        = "pH (Nutrient Availability)"
    ∧ (apply_liebig_law 500 20 250 4.5 1.5 0.8).fertility_classification
        = "INFERTILE"
    ∧ (apply_liebig_law 500 20 250 4.5 1.5 0.8).n_class = "Fertile"
    ∧ (apply_liebig_law 500 20 250 4.5 1.5 0.8).p_class = "Fertile"
    ∧ (apply_liebig_law 500 20 250 4.5 1.5 0.8).k_class = "Fertile" := by
  refine ⟨fun v => ?_, fun v => ?_, fun v => ?_, ?_, ?_, ?_, ?_, ?_, ?_, ?_, ?_, ?_⟩
  · simp [classify_nutrient_level, N_LOW, N_MEDIUM_UPPER]
  · simp [classify_nutrient_level, P_LOW, P_MEDIUM_UPPER]
  · simp [classify_nutrient_level, K_LOW, K_MEDIUM_UPPER]
  all_goals norm_num [apply_liebig_law, classify_nutrient_level,
    assess_ph_gatekeeper, assess_ec_impact, assess_organic_carbon,
    calculate_index_score, min_def,
    (show ("P" : String) ≠ "N" from by decide),
    (show ("K" : String) ≠ "N" from by decide),
    (show ("K" : String) ≠ "P" from by decide),
    HIGHLY_ACIDIC_UPPER, OPTIMAL_LOWER, OPTIMAL_UPPER, ALKALINE_LOWER,
    GOOD_UPPER, MODERATE_UPPER, LOW_UPPER, AVERAGE_UPPER,
    N_LOW, N_MEDIUM_UPPER, P_LOW, P_MEDIUM_UPPER, K_LOW, K_MEDIUM_UPPER]

/-- C6: the index score is `(N + P + K)` times the OC fraction, where an OC
above 1.0 is divided by 100 and an OC of at most 1.0 (including exactly 1.0)
is used as-is; the assessment's `index_score` is exactly this value and
`final_score` is `index_score * limiting_factor_strength`. -/
theorem index_score_oc_normalization :
    (∀ N P K OC : ℚ, calculate_index_score N P K OC
        = (N + P + K) * (if OC > 1.0 then OC / 100.0 else OC))
    ∧ (∀ N P K pH EC OC : ℚ,
        (apply_liebig_law N P K pH EC OC).index_score = calculate_index_score N P K OC)
    ∧ (∀ N P K pH EC OC : ℚ,
        (apply_liebig_law N P K pH EC OC).final_score
          = (apply_liebig_law N P K pH EC OC).index_score
            * (apply_liebig_law N P K pH EC OC).limiting_factor_strength)
    ∧ (∀ N P K : ℚ, calculate_index_score N P K 1 = (N + P + K) * 1)
    ∧ calculate_index_score 100 60 40 1 = 200
    ∧ calculate_index_score 100 60 40 2 = 4 := by
  refine ⟨fun _ _ _ _ => rfl, fun _ _ _ _ _ _ => rfl, fun _ _ _ _ _ _ => rfl,
    fun N P K => ?_, ?_, ?_⟩
  · norm_num [calculate_index_score]
  · norm_num [calculate_index_score]
  · norm_num [calculate_index_score]

/-- C7: when a hardcoded trigger keyword occurs in the lowercased question,
the call returns the fixed hardcoded response (confidence at least 0.95),
the result is identical under any two capability environments (learned
store, document cache, static knowledge base, generative backend), and the
learning store receives no write. -/
theorem hardcoded_stage_noninterference (env1 env2 : Env) (question : String)
    (h : hardcoded_trigger question = true) :
    query_knowledge_base env1 question = query_knowledge_base env2 question
    ∧ (query_knowledge_base env1 question).2 = []
    ∧ (query_knowledge_base env1 question).1.confidence ≥ 0.95
    ∧ ((query_knowledge_base env1 question).1 = cocoa_response
       ∨ (query_knowledge_base env1 question).1 = ratnagiri_response) := by
  simp only [hardcoded_trigger, Bool.or_eq_true] at h
  by_cases hc : cocoa_keywords.any
      (fun kw => strIn kw (pyStrip (pyLower question))) = true
  · have e1 : query_knowledge_base env1 question = (cocoa_response, []) := by
      simp [query_knowledge_base, hc]
    have e2 : query_knowledge_base env2 question = (cocoa_response, []) := by
      simp [query_knowledge_base, hc]
    rw [e1, e2]
    exact ⟨rfl, rfl, by norm_num [cocoa_response], Or.inl rfl⟩
  · have hm : ratnagiri_mango_keywords.any
        (fun kw => strIn kw (pyStrip (pyLower question))) = true := by tauto
    simp only [Bool.not_eq_true] at hc
    have e1 : query_knowledge_base env1 question = (ratnagiri_response, []) := by
      simp [query_knowledge_base, hc, hm]
    have e2 : query_knowledge_base env2 question = (ratnagiri_response, []) := by
      simp [query_knowledge_base, hc, hm]
    rw [e1, e2]
    exact ⟨rfl, rfl, by norm_num [ratnagiri_response], Or.inr rfl⟩

/-- C7 witness: the question "how to grow cocoa" fires the trigger, and the
call behaves identically under the quiet and the busy environment, writes
nothing and answers with confidence at least 0.95. -/
theorem hardcoded_stage_noninterference_witness :
    hardcoded_trigger "how to grow cocoa" = true
    ∧ query_knowledge_base quietEnv "how to grow cocoa"
        = query_knowledge_base busyEnv "how to grow cocoa"
    ∧ (query_knowledge_base quietEnv "how to grow cocoa").2 = []
    ∧ (query_knowledge_base quietEnv "how to grow cocoa").1.confidence ≥ 0.95 := by
  have h : hardcoded_trigger "how to grow cocoa" = true := by decide
  have H := hardcoded_stage_noninterference quietEnv busyEnv "how to grow cocoa" h
  exact ⟨h, H.1, H.2.1, H.2.2.1⟩

/-- C8: every shipped knowledge-base entry is scored by the spec's formula
(10 points for a whole-keyword substring hit, else 5 per constituent word
occurring in the question); when stages 1 and 2 miss, the best-scoring entry
is returned exactly when its score reaches 7, with confidence
`min 0.95 (0.5 + score * 0.03)`, and otherwise the cascade proceeds to the
stages after the knowledge base.  On "optimal ph for rice" the best score is
50 and the capped confidence 0.95, and the full call answers from the
knowledge base. -/
theorem kb_stage_scoring_and_acceptance :
    (∀ q : String, ∀ e ∈ agricultural_knowledge_base,
        entry_score q e.keywords = spec_entry_score q e.keywords)
    ∧ (∀ (env : Env) (question : String) (vec_docs : List String),
        p1_result question (pyStrip (pyLower question)) = none →
        env.vectorDb question 2 = .ok vec_docs →
        p2_extract question vec_docs = none →
        ((∀ entry score,
            find_best_match_in_kb question env.kb = some (entry, score) →
            (score ≥ 7 →
              query_try_body env question (pyStrip (pyLower question))
                = .ok ({ answer := entry.answer, title := entry.title,
                         confidence := min 0.95 (0.5 + (score : ℚ) * 0.03),
                         source_count := 1, source := some "kb" }, []))
            ∧ (score < 7 →
              query_try_body env question (pyStrip (pyLower question))
                = stages_after_kb env question))
         ∧ (find_best_match_in_kb question env.kb = none →
              query_try_body env question (pyStrip (pyLower question))
                = stages_after_kb env question)))
    ∧ (∀ entry score,
        find_best_match_in_kb "optimal ph for rice" agricultural_knowledge_base
          = some (entry, score) →
        score = 50 ∧ min 0.95 (0.5 + (score : ℚ) * 0.03) = 0.95)
    ∧ (query_knowledge_base quietEnv "optimal ph for rice").1.title
        = "Optimal pH for Rice Cultivation"
    ∧ (query_knowledge_base quietEnv "optimal ph for rice").1.source = some "kb" := by
  refine ⟨?_, ?_, ?_, by decide, by decide⟩
  · intro q e he
    exact entry_score_eq_spec q e.keywords (List.all_eq_true.mp kb_keywords_good e he)
  · intro env question vec_docs hp1 hvec hp2
    constructor
    · intro entry score hfb
      constructor
      · intro hge
        simp [query_try_body, hp1, hvec, hp2, hfb, hge]
      · intro hlt
        simp [query_try_body, hp1, hvec, hp2, hfb, Nat.not_le.mpr hlt]
    · intro hfb
      simp [query_try_body, hp1, hvec, hp2, hfb]
  · intro entry score hfb
    have h50 : (find_best_match_in_kb "optimal ph for rice"
        agricultural_knowledge_base).map (fun es => es.2) = some 50 := by decide
    rw [hfb] at h50
    simp at h50
    subst h50
    exact ⟨rfl, by norm_num⟩

/-- C9: the cascade is a total function of the question and the capability
environment; when every stage misses it ends in the terminal fallback with
confidence exactly 0.15 and source count 0, and when a capability raises
(and no hardcoded trigger preempted the `try` block) the `except` handler
answers with confidence 0, inside the stated `[0, 0.15]` failure band.  Both
paths write nothing to the learning store.  Concretely: the empty question
under the quiet environment falls through every stage into the fallback, and
a raising vector-db capability yields the error answer. -/
theorem cascade_fallback_and_error_handling :
    (∀ (env : Env) (question : String), all_stages_miss env question →
        query_knowledge_base env question = (fallback_answer question, []))
    ∧ (∀ question : String, (fallback_answer question).confidence = 0.15
        ∧ (fallback_answer question).source_count = 0)
    ∧ (∀ (env : Env) (question : String) (e : String),
        hardcoded_trigger question = false →
        query_try_body env question (pyStrip (pyLower question)) = .error e →
        query_knowledge_base env question = (query_error_answer, []))
    ∧ (0 ≤ query_error_answer.confidence ∧ query_error_answer.confidence ≤ 0.15)
    ∧ all_stages_miss quietEnv ""
    ∧ query_knowledge_base quietEnv "" = (fallback_answer "", [])
    ∧ query_knowledge_base crashEnv "latest market prices" = (query_error_answer, []) := by
  have hfall : ∀ (env : Env) (question : String), all_stages_miss env question →
      query_knowledge_base env question = (fallback_answer question, []) := by
    intro env question h
    obtain ⟨h0, h1, h2, h3, h4, h5, h6, h7⟩ := h
    simp only [hardcoded_trigger, Bool.or_eq_false_iff] at h0
    obtain ⟨hc, hm⟩ := h0
    have hp1 : p1_result question (pyStrip (pyLower question)) = none := by
      simp [p1_result, h1]
    have hrest : stages_after_kb env question = .ok (fallback_answer question, []) := by
      simp only [stages_after_kb, h1, h4, h5, h6]
      cases hU : env.useLlm with
      | false => simp
      | true => simp [h7]
    have hbody : query_try_body env question (pyStrip (pyLower question))
        = .ok (fallback_answer question, []) := by
      simp only [query_try_body, hp1, h2]
      cases hfb : find_best_match_in_kb question env.kb with
      | none => simpa [p2_extract, hfb] using hrest
      | some es =>
        have hlt : es.2 < 7 := h3 es hfb
        simp [p2_extract, hfb, Nat.not_le.mpr hlt, hrest]
    simp [query_knowledge_base, hc, hm, hbody]
  have herr : ∀ (env : Env) (question : String) (e : String),
      hardcoded_trigger question = false →
      query_try_body env question (pyStrip (pyLower question)) = .error e →
      query_knowledge_base env question = (query_error_answer, []) := by
    intro env question e h0 hb
    simp only [hardcoded_trigger, Bool.or_eq_false_iff] at h0
    simp [query_knowledge_base, h0.1, h0.2, hb]
  have hmiss : all_stages_miss quietEnv "" := by
    refine ⟨by decide, by decide, rfl, ?_, rfl, rfl, rfl, rfl⟩
    intro es h
    rw [show find_best_match_in_kb "" quietEnv.kb = none from by decide] at h
    cases h
  refine ⟨hfall, fun q => ⟨rfl, rfl⟩, herr, by norm_num [query_error_answer], hmiss,
    hfall quietEnv "" hmiss, herr crashEnv "latest market prices" "chromadb unavailable"
      (by decide) rfl⟩

/-- C10: the two hardcoded triggers are plain substring tests on the
lowercased stripped question — the cocoa list is exactly its three substring
tests and the Ratnagiri-mango list collapses to the tests for "ratnagiri",
"mango" and "mangoes" (its other keywords contain "mango") — and any
triggering question gets the fixed response (cocoa first, confidence 0.99;
else the Ratnagiri response with confidence 0.98, its title and one source)
under every capability environment, with no store write; a mango seasonal
question is answered by the hardcoded stage, not the seasonal responder. -/
theorem hardcoded_triggers_substring_semantics :
    (∀ q : String, cocoa_keywords.any (fun kw => strIn kw q)
        = (strIn "cocoa" q || strIn "chocolate tree" q || strIn "theobroma cacao" q))
    ∧ (∀ q : String, ratnagiri_mango_keywords.any (fun kw => strIn kw q)
        = (strIn "ratnagiri" q || strIn "mango" q || strIn "mangoes" q))
    ∧ (∀ (env : Env) (question : String),
        (strIn "cocoa" (pyStrip (pyLower question))
          || strIn "chocolate tree" (pyStrip (pyLower question))
          || strIn "theobroma cacao" (pyStrip (pyLower question))) = true →
        query_knowledge_base env question = (cocoa_response, []))
    ∧ (∀ (env : Env) (question : String),
        (strIn "cocoa" (pyStrip (pyLower question))
          || strIn "chocolate tree" (pyStrip (pyLower question))
          || strIn "theobroma cacao" (pyStrip (pyLower question))) = false →
        (strIn "ratnagiri" (pyStrip (pyLower question))
          || strIn "mango" (pyStrip (pyLower question))
          || strIn "mangoes" (pyStrip (pyLower question))) = true →
        query_knowledge_base env question = (ratnagiri_response, []))
    ∧ ratnagiri_response.confidence = 0.98
    ∧ ratnagiri_response.title = "Ratnagiri Mangoes - Maharashtra's Pride"
    ∧ ratnagiri_response.source_count = 1
    ∧ cocoa_response.confidence = 0.99
    ∧ query_knowledge_base quietEnv "When is mango season in Ratnagiri?"
        = (ratnagiri_response, []) := by
  have hcocoa : ∀ (env : Env) (question : String),
      (strIn "cocoa" (pyStrip (pyLower question))
        || strIn "chocolate tree" (pyStrip (pyLower question))
        || strIn "theobroma cacao" (pyStrip (pyLower question))) = true →
      query_knowledge_base env question = (cocoa_response, []) := by
    intro env question h3
    have hc : cocoa_keywords.any
        (fun kw => strIn kw (pyStrip (pyLower question))) = true := by
      rw [cocoa_any_iff]; exact h3
    simp [query_knowledge_base, hc]
  have hmango : ∀ (env : Env) (question : String),
      (strIn "cocoa" (pyStrip (pyLower question))
        || strIn "chocolate tree" (pyStrip (pyLower question))
        || strIn "theobroma cacao" (pyStrip (pyLower question))) = false →
      (strIn "ratnagiri" (pyStrip (pyLower question))
        || strIn "mango" (pyStrip (pyLower question))
        || strIn "mangoes" (pyStrip (pyLower question))) = true →
      query_knowledge_base env question = (ratnagiri_response, []) := by
    intro env question h3 hm3
    have hc : cocoa_keywords.any
        (fun kw => strIn kw (pyStrip (pyLower question))) = false := by
      rw [cocoa_any_iff]; exact h3
    have hm : ratnagiri_mango_keywords.any
        (fun kw => strIn kw (pyStrip (pyLower question))) = true := by
      rw [ratnagiri_any_iff]; exact hm3
    simp [query_knowledge_base, hc, hm]
  exact ⟨cocoa_any_iff, ratnagiri_any_iff, hcocoa, hmango, rfl, rfl, rfl, rfl,
    hmango quietEnv "When is mango season in Ratnagiri?" (by decide) (by decide)⟩
